import Mathlib

/-!
Shallow embedding of the eb-baby-ai-backend service (src/main.py, src/models.py).

Python strings are modelled as `List Char` (a Python `str` is a sequence of
codepoints).  The SQLAlchemy session state is modelled as explicit lists of
rows, one list per table; `query(...).filter(col == v).first()` becomes
`List.find?`, and an ORM in-place mutation of the found row becomes an update
of the first matching element of the list.  Network I/O performed by `httpx`
is modelled by an oracle value describing the outcome of the one HTTP request
a provider makes.
-/

namespace BabyAI

/-- Python strings as sequences of codepoints. -/
abbrev Str := List Char

/-- Chars of a Lean string literal, used to write Python string literals. -/
def str (s : String) : Str := s.data

/-- Python str.lower (per-character lowercasing). -/
def pyLower (s : Str) : Str := s.map Char.toLower

/-- Python str.strip (remove leading and trailing whitespace). -/
def pyStrip (s : Str) : Str :=
  ((s.dropWhile Char.isWhitespace).reverse.dropWhile Char.isWhitespace).reverse

/-- Python `pat in s` substring test. -/
def pyContains (s pat : Str) : Bool :=
  (List.range (s.length + 1)).any (fun i => pat.isPrefixOf (s.drop i))

/-- Python str.startswith. -/
def pyStartsWith (s pat : Str) : Bool := pat.isPrefixOf s

/-- Python str.endswith for a single-character suffix test. -/
def pyEndsWith (s pat : Str) : Bool := pat.isSuffixOf s

/-- Decimal rendering of a number, as in a Python f-string `{status}`. -/
def natStr (n : Nat) : Str := (toString n).data

end BabyAI

namespace BabyAI

/-- Row of the `concepts` table (src/models.py, class Concept). -/
structure Concept where
  word : Str
  label : Str
  seen_count : Nat
  correct_count : Nat
deriving Repr, DecidableEq

/-- Row of the `experiences` table (src/models.py, class Experience). -/
structure Experience where
  word : Str
  true_label : Str
  ai_guess : Str
  was_correct : Bool
deriving Repr, DecidableEq

/-- Row of the `web_knowledge` table (src/models.py, class WebKnowledge). -/
structure WebKnowledge where
  topic : Str
  source : Str
  summary : Str
deriving Repr, DecidableEq

/-- The whole database session state: one list of rows per table. -/
structure DB where
  concepts : List Concept
  experiences : List Experience
  knowledge : List WebKnowledge
deriving Repr, DecidableEq

/-- The empty database (fresh baby.db). -/
def emptyDB : DB := ⟨[], [], []⟩

/-- An HTTPException raised by a route (status code and detail). -/
structure HttpError where
  status : Nat
  detail : Str
deriving Repr, DecidableEq

end BabyAI

namespace BabyAI

/-- Outcome of the single HTTP request a provider makes: either a response
with a status code and an already-parsed body of interest, or a raised
exception (timeout, transport error, JSON decode error), carrying the
exception text `str e`. -/
inductive HttpOutcome (α : Type) where
  | response (status : Nat) (body : α)
  | exn (msg : Str)
deriving Repr, DecidableEq

/-- One meal record of TheMealDB response; `none` models an absent (or null)
field, read through `meal.get(key, default)` / `or ""` in src/main.py. -/
structure Meal where
  strMeal : Option Str
  strCategory : Option Str
  strArea : Option Str
  strInstructions : Option Str
deriving Repr, DecidableEq

/-- Embedding of fetch_duckduckgo_summary (src/main.py lines 53-96).  The
oracle's body is the `AbstractText` field of the parsed JSON (with the
`data.get("AbstractText", "")` default applied).  Returns
(summary, from_internet, error_message). -/
def fetch_duckduckgo_summary (net : HttpOutcome Str) (topic : Str) :
    Str × Bool × Option Str :=
  match net with
  | .exn e =>
      (str "(Fallback) Error calling DuckDuckGo for \x27" ++ topic ++ str "\x27: " ++ e,
       false, some e)
  | .response status abstract =>
      if status ≠ 200 then
        (str "(Fallback) DuckDuckGo HTTP " ++ natStr status ++ str " for \x27" ++
           topic ++ str "\x27.",
         false, some (str "HTTP " ++ natStr status))
      else if abstract = [] then
        (str "(Fallback) No direct summary found for \x27" ++ topic ++ str "\x27.",
         false, some (str "Empty abstract"))
      else
        (abstract, true, none)

/-- Embedding of fetch_recipe (src/main.py lines 99-140).  The oracle's body
is the `meals` field of the parsed JSON: `none` when the key is missing or
null, otherwise the list of meal records.  Returns
(recipe_text, from_internet, error_message). -/
def fetch_recipe (net : HttpOutcome (Option (List Meal))) (dish : Str) :
    Str × Bool × Option Str :=
  match net with
  | .exn e =>
      (str "(Fallback) Error fetching recipe for \x27" ++ dish ++ str "\x27: " ++ e,
       false, some e)
  | .response status meals? =>
      if status ≠ 200 then
        (str "(Fallback) Could not fetch recipe for \x27" ++ dish ++ str "\x27. HTTP " ++
           natStr status ++ str ".",
         false, some (str "HTTP " ++ natStr status))
      else
        match meals? with
        | none =>
            (str "(Fallback) No recipe found online for \x27" ++ dish ++ str "\x27.",
             false, some (str "No meals in response"))
        | some [] =>
            (str "(Fallback) No recipe found online for \x27" ++ dish ++ str "\x27.",
             false, some (str "No meals in response"))
        | some (meal :: _) =>
            (str "Recipe for " ++ meal.strMeal.getD dish ++ str " (" ++
               meal.strCategory.getD [] ++ str " " ++ meal.strArea.getD [] ++
               str ").\n\n" ++ meal.strInstructions.getD [],
             true, none)

end BabyAI

namespace BabyAI

/-- Update (in place) the first row of the `web_knowledge` list whose topic
matches, setting `summary` and `source` — the ORM mutation of the row
returned by `.first()` in save_web_knowledge. -/
def updateFirstKnowledge (kn : List WebKnowledge) (topic content source : Str) :
    List WebKnowledge :=
  match kn with
  | [] => []
  | r :: rs =>
      if r.topic = topic then
        { r with summary := content, source := source } :: rs
      else
        r :: updateFirstKnowledge rs topic content source

/-- Embedding of save_web_knowledge (src/main.py lines 145-170): look up the
row by topic; insert a new row if absent, otherwise overwrite `summary` and
`source` of the found row.  Returns the new table state and the persisted
(refreshed) record. -/
def save_web_knowledge (kn : List WebKnowledge) (topic content source : Str) :
    List WebKnowledge × WebKnowledge :=
  match kn.find? (fun r => r.topic = topic) with
  | none =>
      let record : WebKnowledge := ⟨topic, source, content⟩
      (kn ++ [record], record)
  | some r =>
      (updateFirstKnowledge kn topic content source,
       { r with summary := content, source := source })

/-- Update (in place) the first row of the `concepts` list whose word
matches, overwriting the label and bumping both counters — the ORM mutation
in teach_baby's else-branch. -/
def updateFirstConcept (cs : List Concept) (word label : Str) : List Concept :=
  match cs with
  | [] => []
  | c :: rest =>
      if c.word = word then
        { c with label := label, seen_count := c.seen_count + 1,
                 correct_count := c.correct_count + 1 } :: rest
      else
        c :: updateFirstConcept rest word label

/-- Embedding of teach_baby (src/main.py lines 187-226): create the concept
with both counters at 1 on first teach, else overwrite the label and
increment `seen_count` and `correct_count`; always append one Experience row
with `ai_guess = true_label` and `was_correct = True`.  Returns the new
database and the refreshed concept. -/
def teach_baby (db : DB) (word true_label : Str) : DB × Concept :=
  let exp : Experience := ⟨word, true_label, true_label, true⟩
  match db.concepts.find? (fun c => c.word = word) with
  | none =>
      let concept : Concept := ⟨word, true_label, 1, 1⟩
      ({ db with concepts := db.concepts ++ [concept],
                 experiences := db.experiences ++ [exp] }, concept)
  | some c =>
      let concept : Concept :=
        { c with label := true_label, seen_count := c.seen_count + 1,
                 correct_count := c.correct_count + 1 }
      ({ db with concepts := updateFirstConcept db.concepts word true_label,
                 experiences := db.experiences ++ [exp] }, concept)

/-- Response of the `/knowledge/{topic}` route. -/
structure KnowledgeView where
  topic : Str
  source : Str
  summary : Str
deriving Repr, DecidableEq

/-- Embedding of get_knowledge (src/main.py lines 292-310): read-only lookup
by exact topic string, 404 when absent. -/
def get_knowledge (topic : Str) (db : DB) : Except HttpError KnowledgeView :=
  match db.knowledge.find? (fun r => r.topic = topic) with
  | none =>
      .error ⟨404, str "No stored knowledge for topic \x27" ++ topic ++
                    str "\x27. Use /command first."⟩
  | some r => .ok ⟨r.topic, r.source, r.summary⟩

/-- Embedding of reset_all (src/main.py lines 382-396).  The confirmation
check raises before any delete runs, so on the error path the database state
is returned untouched; on success all three tables are emptied.  The result
pairs the possibly-raised HTTPException with the resulting database state. -/
def reset_all (confirm : Str) (db : DB) : Option HttpError × DB :=
  if confirm ≠ str "yes_i_am_sure" then
    (some ⟨400, str "Confirmation phrase incorrect."⟩, db)
  else
    (none, ⟨[], [], []⟩)

end BabyAI

namespace BabyAI

/-- Tags naming the content providers a command invocation can call.
`rawPage` names the raw-page-fetch provider the specification describes; it
is included so that theorems can speak about whether such a provider is ever
invoked. -/
inductive ProviderTag where
  | recipeApi
  | duckduckgo
  | rawPage
deriving Repr, DecidableEq

/-- Network oracle for one /command invocation: the outcome each provider's
HTTP request would have if that provider were invoked. -/
structure Network where
  ddg : HttpOutcome Str
  recipe : HttpOutcome (Option (List Meal))

/-- Response body of the /command route (src/main.py lines 278-287). -/
structure CommandResponse where
  message : Str
  original_command : Str
  detected_type : Str
  topic_or_dish : Str
  from_internet : Bool
  source : Str
  debug_error : Option Str
  stored_summary_preview : Str
deriving Repr, DecidableEq

/-- The ordered list of known command openings tried by run_command
(src/main.py lines 249-260). -/
def commandPfxs : List Str :=
  [str "go and learn how to cook",
   str "learn how to cook",
   str "how to cook",
   str "learn recipe for",
   str "recipe for",
   str "learn about",
   str "know about",
   str "learn",
   str "what is",
   str "explain"]

/-- One iteration of the extraction loop body (src/main.py lines 261-262):
if the current string starts with the candidate opening, drop it and strip
whitespace, else leave the string unchanged. -/
def stripStep (s p : Str) : Str :=
  if pyStartsWith s p then pyStrip (s.drop p.length) else s

/-- Embedding of the subject-extraction code of run_command (src/main.py
lines 248-264): fold the loop body over the ordered opening list, then strip
one trailing period (re-stripping whitespace) if present. -/
def extract_dish_or_topic (text : Str) : Str :=
  let d := commandPfxs.foldl stripStep text
  if pyEndsWith d (str ".") then pyStrip d.dropLast else d

/-- Embedding of the intent test of run_command (src/main.py line 245). -/
def is_recipe_command (text : Str) : Bool :=
  pyContains text (str "cook") || pyContains text (str "recipe") ||
    pyContains text (str "make")

/-- Embedding of run_command (src/main.py lines 231-287).  Returns the new
database state, the response body, and (as instrumentation) the list of
provider invocations the run performed, in order. -/
def run_command (net : Network) (command : Str) (db : DB) :
    Except HttpError (DB × CommandResponse × List ProviderTag) :=
  let text := pyStrip (pyLower command)
  if text = [] then
    .error ⟨400, str "Command cannot be empty."⟩
  else
    let is_recipe := is_recipe_command text
    let dish_or_topic := extract_dish_or_topic text
    if dish_or_topic = [] then
      .error ⟨400, str "Could not detect topic/dish from command."⟩
    else
      let fetched :=
        if is_recipe then
          let r := fetch_recipe net.recipe dish_or_topic
          (r.1, r.2.1, r.2.2,
           if r.2.1 then str "recipe_api" else str "recipe_api_fallback",
           [ProviderTag.recipeApi])
        else
          let r := fetch_duckduckgo_summary net.ddg dish_or_topic
          (r.1, r.2.1, r.2.2,
           if r.2.1 then str "duckduckgo" else str "duckduckgo_fallback",
           [ProviderTag.duckduckgo])
      let content := fetched.1
      let from_internet := fetched.2.1
      let error_msg := fetched.2.2.1
      let source := fetched.2.2.2.1
      let invoked := fetched.2.2.2.2
      let saved := save_web_knowledge db.knowledge dish_or_topic content source
      .ok ({ db with knowledge := saved.1 },
           { message := str "Command processed.",
             original_command := command,
             detected_type := if is_recipe then str "recipe" else str "topic",
             topic_or_dish := dish_or_topic,
             from_internet := from_internet,
             source := source,
             debug_error := error_msg,
             stored_summary_preview := saved.2.summary.take 350 },
           invoked)

end BabyAI

namespace BabyAI

/-- Modelled from the spec: subject extraction that strips only the FIRST
matching opening of the ordered list (not all matches), then strips one
trailing period and strips whitespace — the behaviour claim C1 attributes
to the code, written for comparison with `extract_dish_or_topic`. -/
def extractFirstMatchOnly (text : Str) : Str :=
  let d :=
    match commandPfxs.find? (fun p => pyStartsWith text p) with
    | some p => pyStrip (text.drop p.length)
    | none => text
  if pyEndsWith d (str ".") then pyStrip d.dropLast else d

/-- Instrumented version of the extraction loop: also records, in order, the
openings that were actually stripped during the pass. -/
def stripRecord : List Str → Str → Str × List Str
  | [], s => (s, [])
  | p :: ps, s =>
      if pyStartsWith s p then
        let rec' := stripRecord ps (pyStrip (s.drop p.length))
        (rec'.1, p :: rec'.2)
      else
        stripRecord ps s

/-- Number of rows of the `web_knowledge` table stored under a topic. -/
def countTopic (kn : List WebKnowledge) (t : Str) : Nat :=
  (kn.filter (fun r => r.topic = t)).length

/-- First row of the `web_knowledge` table stored under a topic, if any. -/
def findTopic (kn : List WebKnowledge) (t : Str) : Option WebKnowledge :=
  kn.find? (fun r => r.topic = t)

/-- Fold a sequence of (content, source) upserts for one fixed topic over
the `web_knowledge` table, in order. -/
def applyUpserts (kn : List WebKnowledge) (t : Str) (us : List (Str × Str)) :
    List WebKnowledge :=
  us.foldl (fun k u => (save_web_knowledge k t u.1 u.2).1) kn

/-- Fold a sequence of teach_baby calls (word, label) over a database. -/
def applyTeaches (db : DB) (reqs : List (Str × Str)) : DB :=
  reqs.foldl (fun d r => (teach_baby d r.1 r.2).1) db

end BabyAI

namespace BabyAI

theorem updateFirstKnowledge_findTopic (kn : List WebKnowledge)
    (t c s : Str) (r : WebKnowledge) (h : findTopic kn t = some r) :
    findTopic (updateFirstKnowledge kn t c s) t =
      some { r with summary := c, source := s } := by
  induction kn with
  | nil => simp [findTopic] at h
  | cons hd tl ih =>
      by_cases hhd : hd.topic = t
      · simp only [findTopic, List.find?, hhd, decide_True] at h
        cases h
        simp [updateFirstKnowledge, findTopic, List.find?, hhd]
      · simp only [findTopic, List.find?, hhd, decide_False] at h
        simp only [updateFirstKnowledge, if_neg hhd, findTopic, List.find?, hhd,
          decide_False]
        exact ih h

theorem findTopic_save (kn : List WebKnowledge) (t c s : Str) :
    findTopic (save_web_knowledge kn t c s).1 t = some ⟨t, s, c⟩ := by
  unfold save_web_knowledge
  cases hf : kn.find? (fun r => r.topic = t) with
  | none =>
      have hnone : ∀ r ∈ kn, ¬ r.topic = t := by
        intro r hr
        have := List.find?_eq_none.mp hf r hr
        simpa using this
      simp only [findTopic, List.find?_append, hf]
      simp
  | some r =>
      have hrt : r.topic = t := by
        have := List.find?_some hf
        simpa using this
      have hu := updateFirstKnowledge_findTopic kn t c s r hf
      subst hrt
      exact hu

theorem save_record (kn : List WebKnowledge) (t c s : Str) :
    (save_web_knowledge kn t c s).2 = ⟨t, s, c⟩ := by
  unfold save_web_knowledge
  cases hf : kn.find? (fun r => r.topic = t) with
  | none => rfl
  | some r =>
      have hrt : r.topic = t := by
        have := List.find?_some hf
        simpa using this
      subst hrt
      rfl

theorem updateFirstKnowledge_countTopic (kn : List WebKnowledge) (t c s t' : Str) :
    countTopic (updateFirstKnowledge kn t c s) t' = countTopic kn t' := by
  induction kn with
  | nil => rfl
  | cons hd tl ih =>
      by_cases hhd : hd.topic = t
      · simp only [updateFirstKnowledge, if_pos hhd]
        by_cases h2 : hd.topic = t'
        · simp [countTopic, List.filter_cons, hhd ▸ h2, h2]
        · simp [countTopic, List.filter_cons, hhd ▸ h2, h2]
      · simp only [updateFirstKnowledge, if_neg hhd]
        by_cases h2 : hd.topic = t'
        · simpa [countTopic, List.filter_cons, h2] using ih
        · simpa [countTopic, List.filter_cons, h2] using ih

theorem countTopic_save (kn : List WebKnowledge) (t c s : Str)
    (h : countTopic kn t ≤ 1) :
    countTopic (save_web_knowledge kn t c s).1 t = 1 := by
  unfold save_web_knowledge
  cases hf : kn.find? (fun r => r.topic = t) with
  | none =>
      have hnone : ∀ r ∈ kn, ¬ r.topic = t := by
        intro r hr
        have := List.find?_eq_none.mp hf r hr
        simpa using this
      have h0 : countTopic kn t = 0 := by
        simp only [countTopic, List.length_eq_zero, List.filter_eq_nil_iff]
        intro r hr
        simpa using hnone r hr
      simp only [countTopic, List.filter_append] at h0 ⊢
      simp only [countTopic, List.length_eq_zero] at h0
      simp [h0]
  | some r =>
      have hmem : r ∈ kn := List.mem_of_find?_eq_some hf
      have hrt : r.topic = t := by
        have := List.find?_some hf
        simpa using this
      have h1 : 1 ≤ countTopic kn t := by
        have : r ∈ kn.filter (fun x => x.topic = t) := by
          simp [List.mem_filter, hmem, hrt]
        have := List.length_pos.mpr (List.ne_nil_of_mem this)
        simpa [countTopic] using this
      have heq : countTopic kn t = 1 := le_antisymm h h1
      simpa [updateFirstKnowledge_countTopic] using heq

end BabyAI

namespace BabyAI

/-- The provider result run_command uses for a given normalized command
text and subject: the recipe provider when a recipe keyword occurs in the
text, otherwise the DuckDuckGo summary provider. -/
def providerResult (net : Network) (text subj : Str) : Str × Bool × Option Str :=
  if is_recipe_command text then fetch_recipe net.recipe subj
  else fetch_duckduckgo_summary net.ddg subj

/-- The provenance tag run_command stores for a given normalized command
text and provider success flag. -/
def sourceTag (text : Str) (ok : Bool) : Str :=
  if is_recipe_command text then
    (if ok then str "recipe_api" else str "recipe_api_fallback")
  else
    (if ok then str "duckduckgo" else str "duckduckgo_fallback")

theorem run_command_ok (net : Network) (cmd : Str) (db : DB)
    (h1 : pyStrip (pyLower cmd) ≠ [])
    (h2 : extract_dish_or_topic (pyStrip (pyLower cmd)) ≠ []) :
    run_command net cmd db =
      .ok ({ db with knowledge :=
               (save_web_knowledge db.knowledge
                 (extract_dish_or_topic (pyStrip (pyLower cmd)))
                 (providerResult net (pyStrip (pyLower cmd))
                   (extract_dish_or_topic (pyStrip (pyLower cmd)))).1
                 (sourceTag (pyStrip (pyLower cmd))
                   (providerResult net (pyStrip (pyLower cmd))
                     (extract_dish_or_topic (pyStrip (pyLower cmd)))).2.1)).1 },
           { message := str "Command processed.",
             original_command := cmd,
             detected_type :=
               if is_recipe_command (pyStrip (pyLower cmd)) then str "recipe"
               else str "topic",
             topic_or_dish := extract_dish_or_topic (pyStrip (pyLower cmd)),
             from_internet :=
               (providerResult net (pyStrip (pyLower cmd))
                 (extract_dish_or_topic (pyStrip (pyLower cmd)))).2.1,
             source :=
               sourceTag (pyStrip (pyLower cmd))
                 (providerResult net (pyStrip (pyLower cmd))
                   (extract_dish_or_topic (pyStrip (pyLower cmd)))).2.1,
             debug_error :=
               (providerResult net (pyStrip (pyLower cmd))
                 (extract_dish_or_topic (pyStrip (pyLower cmd)))).2.2,
             stored_summary_preview :=
               ((save_web_knowledge db.knowledge
                 (extract_dish_or_topic (pyStrip (pyLower cmd)))
                 (providerResult net (pyStrip (pyLower cmd))
                   (extract_dish_or_topic (pyStrip (pyLower cmd)))).1
                 (sourceTag (pyStrip (pyLower cmd))
                   (providerResult net (pyStrip (pyLower cmd))
                     (extract_dish_or_topic (pyStrip (pyLower cmd)))).2.1)).2.summary.take
                 350) },
           [if is_recipe_command (pyStrip (pyLower cmd)) then ProviderTag.recipeApi
            else ProviderTag.duckduckgo]) := by
  unfold run_command providerResult sourceTag
  rw [if_neg h1, if_neg h2]
  by_cases hisr : is_recipe_command (pyStrip (pyLower cmd))
  · simp [hisr]
  · simp [hisr]

theorem run_command_ok_inv (net : Network) (cmd : Str) (db : DB)
    (x : DB × CommandResponse × List ProviderTag)
    (h : run_command net cmd db = .ok x) :
    pyStrip (pyLower cmd) ≠ [] ∧
      extract_dish_or_topic (pyStrip (pyLower cmd)) ≠ [] := by
  by_cases h1 : pyStrip (pyLower cmd) = []
  · unfold run_command at h
    rw [if_pos h1] at h
    exact absurd h (by simp)
  · by_cases h2 : extract_dish_or_topic (pyStrip (pyLower cmd)) = []
    · unfold run_command at h
      rw [if_neg h1, if_pos h2] at h
      exact absurd h (by simp)
    · exact ⟨h1, h2⟩

end BabyAI

namespace BabyAI

theorem updateFirstConcept_balanced (cs : List Concept) (w l : Str)
    (h : ∀ c ∈ cs, c.correct_count = c.seen_count) :
    ∀ c ∈ updateFirstConcept cs w l, c.correct_count = c.seen_count := by
  induction cs with
  | nil => simp [updateFirstConcept]
  | cons hd tl ih =>
      intro c hc
      by_cases hw : hd.word = w
      · simp only [updateFirstConcept, if_pos hw] at hc
        rcases List.mem_cons.mp hc with hceq | hcm
        · have hhd := h hd (by simp)
          subst hceq
          simp [hhd]
        · exact h c (List.mem_cons_of_mem _ hcm)
      · simp only [updateFirstConcept, if_neg hw] at hc
        rcases List.mem_cons.mp hc with hceq | hcm
        · subst hceq
          exact h c (by simp)
        · exact ih (fun x hx => h x (List.mem_cons_of_mem _ hx)) c hcm

theorem teach_baby_balanced (db : DB) (w l : Str)
    (h : ∀ c ∈ db.concepts, c.correct_count = c.seen_count) :
    (teach_baby db w l).2.correct_count = (teach_baby db w l).2.seen_count ∧
    ∀ c ∈ (teach_baby db w l).1.concepts, c.correct_count = c.seen_count := by
  unfold teach_baby
  cases hf : db.concepts.find? (fun c => c.word = w) with
  | none =>
      refine ⟨rfl, ?_⟩
      intro c hc
      simp only [List.mem_append, List.mem_singleton] at hc
      rcases hc with hcm | hceq
      · exact h c hcm
      · subst hceq; rfl
  | some c0 =>
      have hc0 : c0 ∈ db.concepts := List.mem_of_find?_eq_some hf
      have hb := h c0 hc0
      exact ⟨by simp [hb], fun c hc => updateFirstConcept_balanced _ _ _ h c hc⟩

theorem applyTeaches_balanced (reqs : List (Str × Str)) (db : DB)
    (h : ∀ c ∈ db.concepts, c.correct_count = c.seen_count) :
    ∀ c ∈ (applyTeaches db reqs).concepts, c.correct_count = c.seen_count := by
  induction reqs generalizing db with
  | nil => exact h
  | cons r rs ih => exact ih _ ((teach_baby_balanced db r.1 r.2 h).2)

/-- C7: after every teach_baby call on any database reachable by teaching
from the empty database, the updated Concept has
`correct_count = seen_count`, and every Concept in the resulting database
satisfies `correct_count = seen_count` (hence also
`correct_count ≤ seen_count`): both counters start at 1 on first teach and
are incremented together on every repeat teach. -/
theorem c7_teach_counts_balanced (reqs : List (Str × Str)) (w l : Str) :
    (teach_baby (applyTeaches emptyDB reqs) w l).2.correct_count =
      (teach_baby (applyTeaches emptyDB reqs) w l).2.seen_count ∧
    ∀ c ∈ (teach_baby (applyTeaches emptyDB reqs) w l).1.concepts,
      c.correct_count = c.seen_count ∧ c.correct_count ≤ c.seen_count := by
  have hbal : ∀ c ∈ (applyTeaches emptyDB reqs).concepts,
      c.correct_count = c.seen_count :=
    applyTeaches_balanced reqs emptyDB (by simp [emptyDB])
  have hres := teach_baby_balanced (applyTeaches emptyDB reqs) w l hbal
  exact ⟨hres.1, fun c hc => ⟨hres.2 c hc, le_of_eq (hres.2 c hc)⟩⟩

/-- C10: reset_all with any confirmation string other than
"yes_i_am_sure" raises a 400 HTTPException before any delete runs, leaving
every Concept, Experience and WebKnowledge row unchanged. -/
theorem c10_reset_all_wrong_confirmation (confirm : Str) (db : DB)
    (h : confirm ≠ str "yes_i_am_sure") :
    (reset_all confirm db).1 = some ⟨400, str "Confirmation phrase incorrect."⟩ ∧
    (reset_all confirm db).2 = db := by
  simp [reset_all, h]

/-- Witness for C10 at a concrete wrong confirmation string and a concrete
non-empty database. -/
theorem c10_reset_all_wrong_confirmation_witness :
    (str "yes" ≠ str "yes_i_am_sure") ∧
    ((reset_all (str "yes")
        ⟨[⟨str "cat", str "animal", 2, 2⟩],
         [⟨str "cat", str "animal", str "animal", true⟩],
         [⟨str "sun", str "duckduckgo", str "a star"⟩]⟩).1 =
      some ⟨400, str "Confirmation phrase incorrect."⟩ ∧
     (reset_all (str "yes")
        ⟨[⟨str "cat", str "animal", 2, 2⟩],
         [⟨str "cat", str "animal", str "animal", true⟩],
         [⟨str "sun", str "duckduckgo", str "a star"⟩]⟩).2 =
      ⟨[⟨str "cat", str "animal", 2, 2⟩],
       [⟨str "cat", str "animal", str "animal", true⟩],
       [⟨str "sun", str "duckduckgo", str "a star"⟩]⟩) :=
  ⟨by decide,
   c10_reset_all_wrong_confirmation (str "yes")
     ⟨[⟨str "cat", str "animal", 2, 2⟩],
      [⟨str "cat", str "animal", str "animal", true⟩],
      [⟨str "sun", str "duckduckgo", str "a star"⟩]⟩ (by decide)⟩

end BabyAI

namespace BabyAI

theorem applyUpserts_cons (kn : List WebKnowledge) (t : Str)
    (u : Str × Str) (us : List (Str × Str)) :
    applyUpserts kn t (u :: us) =
      applyUpserts (save_web_knowledge kn t u.1 u.2).1 t us := rfl

/-- C2: for every sequence of upserts to the same topic (starting from any
table state holding at most one row for that topic), the `web_knowledge`
table holds exactly one row for that topic, whose summary and source are the
content and source of the LAST upsert: later upserts overwrite in place
rather than inserting a duplicate.  Upserts are (content, source) pairs. -/
theorem c2_upsert_exactly_one_last_wins (kn : List WebKnowledge) (t : Str)
    (h : countTopic kn t ≤ 1) (u : Str × Str) (us : List (Str × Str)) :
    countTopic (applyUpserts kn t (u :: us)) t = 1 ∧
    findTopic (applyUpserts kn t (u :: us)) t =
      some ⟨t, (us.getLastD u).2, (us.getLastD u).1⟩ := by
  induction us generalizing kn u with
  | nil =>
      rw [applyUpserts_cons]
      exact ⟨countTopic_save kn t u.1 u.2 h, findTopic_save kn t u.1 u.2⟩
  | cons v vs ih =>
      rw [applyUpserts_cons]
      have h1 : countTopic (save_web_knowledge kn t u.1 u.2).1 t ≤ 1 :=
        le_of_eq (countTopic_save kn t u.1 u.2 h)
      have := ih (save_web_knowledge kn t u.1 u.2).1 h1 v
      rw [List.getLastD_cons]
      exact this

/-- Witness for C2: two upserts to topic "sun" on the empty table leave one
row holding the second upsert's summary and source. -/
theorem c2_upsert_exactly_one_last_wins_witness :
    countTopic (applyUpserts [] (str "sun")
      [(str "first text", str "duckduckgo"),
       (str "second text", str "duckduckgo_fallback")]) (str "sun") = 1 ∧
    findTopic (applyUpserts [] (str "sun")
      [(str "first text", str "duckduckgo"),
       (str "second text", str "duckduckgo_fallback")]) (str "sun") =
      some ⟨str "sun", str "duckduckgo_fallback", str "second text"⟩ := by
  have := c2_upsert_exactly_one_last_wins [] (str "sun") (by decide)
    (str "first text", str "duckduckgo")
    [(str "second text", str "duckduckgo_fallback")]
  simpa using this

end BabyAI

namespace BabyAI

theorem stripRecord_spec (ps : List Str) (s : Str) :
    (stripRecord ps s).1 = ps.foldl stripStep s ∧
    (stripRecord ps s).2.Sublist ps := by
  induction ps generalizing s with
  | nil => simp [stripRecord]
  | cons p ps ih =>
      by_cases hp : pyStartsWith s p
      · simp only [stripRecord, if_pos hp, List.foldl_cons, stripStep]
        exact ⟨(ih _).1, List.Sublist.cons₂ _ (ih _).2⟩
      · simp only [stripRecord, if_neg hp, List.foldl_cons, stripStep]
        exact ⟨(ih _).1, List.Sublist.cons _ (ih _).2⟩

/-- C1 counterexample: on the command "learn what is gravity" the extraction
loop strips the opening "learn" and THEN also strips the later opening
"what is" from the already-stripped remainder, yielding "gravity" — whereas
stripping only the first matching opening of the list would yield
"what is gravity".  So a second opening from the list can be stripped from
the same command. -/
theorem c1_counterexample :
    extract_dish_or_topic (str "learn what is gravity") = str "gravity" ∧
    (stripRecord commandPfxs (str "learn what is gravity")).2 =
      [str "learn", str "what is"] ∧
    extractFirstMatchOnly (str "learn what is gravity") = str "what is gravity" ∧
    str "gravity" ≠ str "what is gravity" := by decide

/-- C1 (amended): subject extraction tests the current string against each
opening of the fixed ordered list in turn, stripping EVERY opening that
matches the progressively stripped string (so after one opening is
stripped, a later opening of the list may be stripped as well, though each
list entry is tested, and hence stripped, at most once, in list order);
it then strips one trailing period if present and strips whitespace. -/
theorem c1_extraction_one_ordered_pass (text : Str) :
    extract_dish_or_topic text =
      (if pyEndsWith (stripRecord commandPfxs text).1 (str ".") then
        pyStrip (stripRecord commandPfxs text).1.dropLast
      else
        (stripRecord commandPfxs text).1) ∧
    (stripRecord commandPfxs text).2.Sublist commandPfxs := by
  have h := stripRecord_spec commandPfxs text
  refine ⟨?_, h.2⟩
  rw [extract_dish_or_topic, h.1]

end BabyAI

namespace BabyAI

/-- C3 counterexample: for the Topic-intent command "learn about gravity"
with a network where the first (and only) summary provider fails (HTTP 200
but empty abstract), run_command invokes exactly one provider — DuckDuckGo —
and returns that failure's fallback content: no second summary provider and
no raw-page provider is ever invoked, so there is no chain in which a later
provider could succeed after an earlier one fails. -/
theorem c3_counterexample :
    run_command ⟨.response 200 [], .response 200 none⟩
        (str "learn about gravity") emptyDB =
      .ok (⟨[], [],
            [⟨str "gravity", str "duckduckgo_fallback",
              str "(Fallback) No direct summary found for \x27gravity\x27."⟩]⟩,
           ⟨str "Command processed.", str "learn about gravity", str "topic",
            str "gravity", false, str "duckduckgo_fallback",
            some (str "Empty abstract"),
            str "(Fallback) No direct summary found for \x27gravity\x27."⟩,
           [ProviderTag.duckduckgo]) ∧
    ([ProviderTag.duckduckgo].contains ProviderTag.rawPage) = false ∧
    ([ProviderTag.duckduckgo].length) = 1 := by
  refine ⟨by rfl, by rfl, by rfl⟩

/-- C3 (amended): for every Topic-intent command, run_command invokes
exactly one provider — the DuckDuckGo summary provider — and uses its
result directly (content, success flag and diagnostic); no raw-page
provider and no second summary provider is invoked, whether the provider
succeeds or fails. -/
theorem c3_topic_single_provider (net : Network) (cmd : Str) (db db' : DB)
    (resp : CommandResponse) (tr : List ProviderTag)
    (h : run_command net cmd db = .ok (db', resp, tr))
    (htopic : resp.detected_type = str "topic") :
    tr = [ProviderTag.duckduckgo] ∧
    ProviderTag.rawPage ∉ tr ∧
    resp.from_internet =
      (fetch_duckduckgo_summary net.ddg resp.topic_or_dish).2.1 ∧
    resp.debug_error =
      (fetch_duckduckgo_summary net.ddg resp.topic_or_dish).2.2 ∧
    findTopic db'.knowledge resp.topic_or_dish =
      some ⟨resp.topic_or_dish, resp.source,
            (fetch_duckduckgo_summary net.ddg resp.topic_or_dish).1⟩ := by
  obtain ⟨h1, h2⟩ := run_command_ok_inv net cmd db _ h
  rw [run_command_ok net cmd db h1 h2] at h
  simp only [Except.ok.injEq, Prod.mk.injEq] at h
  obtain ⟨hdb, hresp, htr⟩ := h
  subst hdb hresp htr
  by_cases hisr : is_recipe_command (pyStrip (pyLower cmd))
  · simp only [hisr, if_true] at htopic
    exact absurd htopic (by decide)
  · simp only [hisr, if_false, providerResult, sourceTag]
    refine ⟨rfl, by decide, rfl, rfl, ?_⟩
    exact findTopic_save db.knowledge _ _ _

end BabyAI

namespace BabyAI

theorem left_ne_nil_append (a b : Str) (h : a ≠ []) : a ++ b ≠ [] := by
  cases a with
  | nil => exact absurd rfl h
  | cons x xs => simp

/-- Contract a provider's failure output satisfies: a reason is reported,
and the placeholder content is non-empty and embeds the subject. -/
def failurePlaceholder (subject : Str) (out : Str × Bool × Option Str) : Prop :=
  (∃ r, out.2.2 = some r) ∧ out.1 ≠ [] ∧ ∃ a b, out.1 = a ++ subject ++ b

theorem ne_nil_of_eq_append (c a s b : Str) (hc : c = a ++ s ++ b)
    (ha : a ≠ []) : c ≠ [] := by
  subst hc
  exact left_ne_nil_append (a ++ s) b (left_ne_nil_append a s ha)

theorem ddg_failure_contract (dnet : HttpOutcome Str) (subject : Str)
    (h : (fetch_duckduckgo_summary dnet subject).2.1 = false) :
    failurePlaceholder subject (fetch_duckduckgo_summary dnet subject) := by
  cases dnet with
  | exn e =>
      have hab : (fetch_duckduckgo_summary (.exn e) subject).1 =
          str "(Fallback) Error calling DuckDuckGo for \x27" ++ subject ++
            (str "\x27: " ++ e) := by
        simp [fetch_duckduckgo_summary, List.append_assoc]
      exact ⟨⟨e, rfl⟩, ne_nil_of_eq_append _ _ _ _ hab (by decide), ⟨_, _, hab⟩⟩
  | response status abstract =>
      by_cases hs : status ≠ 200
      · have hab : (fetch_duckduckgo_summary (.response status abstract) subject).1 =
            (str "(Fallback) DuckDuckGo HTTP " ++ natStr status ++ str " for \x27") ++
              subject ++ str "\x27." := by
          simp [fetch_duckduckgo_summary, if_pos hs, List.append_assoc]
        refine ⟨⟨str "HTTP " ++ natStr status, ?_⟩,
          ne_nil_of_eq_append _ _ _ _ hab ?_, ⟨_, _, hab⟩⟩
        · simp [fetch_duckduckgo_summary, if_pos hs]
        · exact left_ne_nil_append _ (str " for \x27")
            (left_ne_nil_append (str "(Fallback) DuckDuckGo HTTP ") (natStr status)
              (by decide))
      · by_cases ha : abstract = []
        · have hab : (fetch_duckduckgo_summary (.response status abstract) subject).1 =
              str "(Fallback) No direct summary found for \x27" ++ subject ++
                str "\x27." := by
            simp [fetch_duckduckgo_summary, if_neg hs, if_pos ha, List.append_assoc]
          refine ⟨⟨str "Empty abstract", ?_⟩,
            ne_nil_of_eq_append _ _ _ _ hab (by decide), ⟨_, _, hab⟩⟩
          simp [fetch_duckduckgo_summary, if_neg hs, if_pos ha]
        · simp [fetch_duckduckgo_summary, if_neg hs, if_neg ha] at h

theorem recipe_failure_contract (rnet : HttpOutcome (Option (List Meal)))
    (subject : Str) (h : (fetch_recipe rnet subject).2.1 = false) :
    failurePlaceholder subject (fetch_recipe rnet subject) := by
  cases rnet with
  | exn e =>
      have hab : (fetch_recipe (.exn e) subject).1 =
          str "(Fallback) Error fetching recipe for \x27" ++ subject ++
            (str "\x27: " ++ e) := by
        simp [fetch_recipe, List.append_assoc]
      exact ⟨⟨e, rfl⟩, ne_nil_of_eq_append _ _ _ _ hab (by decide), ⟨_, _, hab⟩⟩
  | response status meals? =>
      by_cases hs : status ≠ 200
      · have hab : (fetch_recipe (.response status meals?) subject).1 =
            str "(Fallback) Could not fetch recipe for \x27" ++ subject ++
              (str "\x27. HTTP " ++ natStr status ++ str ".") := by
          simp [fetch_recipe, if_pos hs, List.append_assoc]
        refine ⟨⟨str "HTTP " ++ natStr status, ?_⟩,
          ne_nil_of_eq_append _ _ _ _ hab (by decide), ⟨_, _, hab⟩⟩
        simp [fetch_recipe, if_pos hs]
      · match meals? with
        | none =>
            have hab : (fetch_recipe (.response status none) subject).1 =
                str "(Fallback) No recipe found online for \x27" ++ subject ++
                  str "\x27." := by
              simp [fetch_recipe, if_neg hs, List.append_assoc]
            refine ⟨⟨str "No meals in response", ?_⟩,
              ne_nil_of_eq_append _ _ _ _ hab (by decide), ⟨_, _, hab⟩⟩
            simp [fetch_recipe, if_neg hs]
        | some [] =>
            have hab : (fetch_recipe (.response status (some [])) subject).1 =
                str "(Fallback) No recipe found online for \x27" ++ subject ++
                  str "\x27." := by
              simp [fetch_recipe, if_neg hs, List.append_assoc]
            refine ⟨⟨str "No meals in response", ?_⟩,
              ne_nil_of_eq_append _ _ _ _ hab (by decide), ⟨_, _, hab⟩⟩
            simp [fetch_recipe, if_neg hs]
        | some (meal :: rest) =>
            simp [fetch_recipe, if_neg hs] at h

/-- C4: for every subject and every network outcome (non-200 status,
missing or empty result field, timeout or any transport exception), each of
the two content providers returns a (placeholderText, false, some reason)
triple instead of raising, and the placeholder text is a non-empty message
embedding the subject. -/
theorem c4_providers_never_raise (dnet : HttpOutcome Str)
    (rnet : HttpOutcome (Option (List Meal))) (subject : Str) :
    ((fetch_duckduckgo_summary dnet subject).2.1 = false →
      failurePlaceholder subject (fetch_duckduckgo_summary dnet subject)) ∧
    ((fetch_recipe rnet subject).2.1 = false →
      failurePlaceholder subject (fetch_recipe rnet subject)) :=
  ⟨ddg_failure_contract dnet subject, recipe_failure_contract rnet subject⟩

/-- Witness for C4 at concrete failing outcomes: an HTTP 500 from DuckDuckGo
and a transport exception from TheMealDB, for the subject "sun". -/
theorem c4_providers_never_raise_witness :
    ((fetch_duckduckgo_summary (.response 500 (str "ignored")) (str "sun")).2.1 = false →
      failurePlaceholder (str "sun")
        (fetch_duckduckgo_summary (.response 500 (str "ignored")) (str "sun"))) ∧
    ((fetch_recipe (.exn (str "timeout")) (str "sun")).2.1 = false →
      failurePlaceholder (str "sun")
        (fetch_recipe (.exn (str "timeout")) (str "sun"))) ∧
    (fetch_duckduckgo_summary (.response 500 (str "ignored")) (str "sun")).2.1 = false ∧
    (fetch_recipe (.exn (str "timeout")) (str "sun")).2.1 = false :=
  ⟨(c4_providers_never_raise (.response 500 (str "ignored")) (.exn (str "timeout"))
      (str "sun")).1,
   (c4_providers_never_raise (.response 500 (str "ignored")) (.exn (str "timeout"))
      (str "sun")).2,
   by decide, by decide⟩

end BabyAI

namespace BabyAI

/-- Witness for C3 (amended) at a concrete Topic command and a succeeding
DuckDuckGo response. -/
theorem c3_topic_single_provider_witness :
    ([ProviderTag.duckduckgo] : List ProviderTag) = [ProviderTag.duckduckgo] ∧
    ProviderTag.rawPage ∉ ([ProviderTag.duckduckgo] : List ProviderTag) ∧
    (true : Bool) =
      (fetch_duckduckgo_summary (.response 200 (str "A star")) (str "sun")).2.1 ∧
    (none : Option Str) =
      (fetch_duckduckgo_summary (.response 200 (str "A star")) (str "sun")).2.2 ∧
    findTopic [⟨str "sun", str "duckduckgo", str "A star"⟩] (str "sun") =
      some ⟨str "sun", str "duckduckgo",
            (fetch_duckduckgo_summary (.response 200 (str "A star")) (str "sun")).1⟩ :=
  c3_topic_single_provider
    ⟨.response 200 (str "A star"), .response 200 none⟩
    (str "learn about sun") emptyDB
    ⟨[], [], [⟨str "sun", str "duckduckgo", str "A star"⟩]⟩
    ⟨str "Command processed.", str "learn about sun", str "topic", str "sun",
     true, str "duckduckgo", none, str "A star"⟩
    [ProviderTag.duckduckgo] (by rfl) (by rfl)

/-- C6 counterexample: with a successful recipe lookup whose first meal is
(Pasta, Italian, Italy, "Boil.") the code formats the content with a SPACE
between category and area and a PERIOD after the closing parenthesis —
"Recipe for Pasta (Italian Italy).\n\n..." — not the comma-and-colon format
"Recipe for Pasta (Italian, Italy):\n\n..." the claim states. -/
theorem c6_counterexample :
    (fetch_recipe
        (.response 200 (some [⟨some (str "Pasta"), some (str "Italian"),
          some (str "Italy"), some (str "Boil.")⟩])) (str "pasta")).1 =
      str "Recipe for Pasta (Italian Italy).\n\nBoil." ∧
    str "Recipe for Pasta (Italian Italy).\n\nBoil." ≠
      str "Recipe for Pasta (Italian, Italy):\n\nBoil." := by decide

/-- C6 (amended): when the recipe provider succeeds (HTTP 200 and a
non-empty meals list) the returned content is formatted exactly as
"Recipe for {name} ({category} {area}).\n\n{instructions}" — space-separated
category and area, a period after the parenthesis — using the FIRST result
of the list (with the dish name as default when the name field is absent and
empty strings for absent category/area/instructions), with success flag true
and no error detail. -/
theorem c6_recipe_success_format (dish : Str) (meal : Meal) (rest : List Meal) :
    fetch_recipe (.response 200 (some (meal :: rest))) dish =
      (str "Recipe for " ++ meal.strMeal.getD dish ++ str " (" ++
         meal.strCategory.getD [] ++ str " " ++ meal.strArea.getD [] ++
         str ").\n\n" ++ meal.strInstructions.getD [],
       true, none) := by
  rfl

end BabyAI

namespace BabyAI

/-- C8: for every command the pipeline processes, the summary preview in the
response equals the first 350 characters of the stored record's summary: it
is `take 350` of the stored summary, its length never exceeds 350, it
equals exactly 350 characters when the stored summary has at least 350, and
it is a prefix of the stored summary. -/
theorem c8_preview_truncation (net : Network) (cmd : Str) (db db' : DB)
    (resp : CommandResponse) (tr : List ProviderTag)
    (h : run_command net cmd db = .ok (db', resp, tr)) :
    ∃ r, findTopic db'.knowledge resp.topic_or_dish = some r ∧
      resp.stored_summary_preview = r.summary.take 350 ∧
      resp.stored_summary_preview.length ≤ 350 ∧
      (350 ≤ r.summary.length → resp.stored_summary_preview.length = 350) ∧
      ∃ rest, r.summary = resp.stored_summary_preview ++ rest := by
  obtain ⟨h1, h2⟩ := run_command_ok_inv net cmd db _ h
  rw [run_command_ok net cmd db h1 h2] at h
  set text := pyStrip (pyLower cmd) with htext
  set subj := extract_dish_or_topic text with hsubj
  set pr := providerResult net text subj with hpr
  set srcT := sourceTag text pr.2.1 with hsrc
  simp only [Except.ok.injEq, Prod.mk.injEq] at h
  obtain ⟨hdb, hresp, htr⟩ := h
  subst hdb hresp htr
  refine ⟨⟨subj, srcT, pr.1⟩, ?_, ?_, ?_, ?_, ?_⟩
  · simpa using findTopic_save db.knowledge subj pr.1 srcT
  · simp [save_record]
  · simp [save_record, List.length_take]
  · intro hlen
    simp only [save_record, List.length_take]
    simp only [save_record] at hlen
    omega
  · refine ⟨pr.1.drop 350, ?_⟩
    simp [save_record, List.take_append_drop]

theorem get_knowledge_found (topic : Str) (db : DB) (r : WebKnowledge)
    (h : findTopic db.knowledge topic = some r) :
    get_knowledge topic db = .ok ⟨r.topic, r.source, r.summary⟩ := by
  unfold get_knowledge
  unfold findTopic at h
  rw [h]

/-- C9: for every command the pipeline processes without a 400 error, the
topic key under which the content is stored equals the `topic_or_dish`
string returned in the response: the stored record carries exactly that
topic and the response's source, and an immediate get of that exact string
returns a record whose topic, source and summary equal the stored ones (the
response preview is the 350-character prefix of that same summary). -/
theorem c9_command_get_round_trip (net : Network) (cmd : Str) (db db' : DB)
    (resp : CommandResponse) (tr : List ProviderTag)
    (h : run_command net cmd db = .ok (db', resp, tr)) :
    ∃ summ,
      findTopic db'.knowledge resp.topic_or_dish =
        some ⟨resp.topic_or_dish, resp.source, summ⟩ ∧
      get_knowledge resp.topic_or_dish db' =
        .ok ⟨resp.topic_or_dish, resp.source, summ⟩ ∧
      resp.stored_summary_preview = summ.take 350 := by
  obtain ⟨h1, h2⟩ := run_command_ok_inv net cmd db _ h
  rw [run_command_ok net cmd db h1 h2] at h
  set text := pyStrip (pyLower cmd) with htext
  set subj := extract_dish_or_topic text with hsubj
  set pr := providerResult net text subj with hpr
  set srcT := sourceTag text pr.2.1 with hsrc
  simp only [Except.ok.injEq, Prod.mk.injEq] at h
  obtain ⟨hdb, hresp, htr⟩ := h
  subst hdb hresp htr
  have hf : findTopic
      ({ db with knowledge :=
          (save_web_knowledge db.knowledge subj pr.1 srcT).1 } : DB).knowledge
        subj = some ⟨subj, srcT, pr.1⟩ :=
    findTopic_save db.knowledge subj pr.1 srcT
  refine ⟨pr.1, ?_, ?_, ?_⟩
  · simpa using hf
  · simpa using get_knowledge_found subj _ ⟨subj, srcT, pr.1⟩ hf
  · simp [save_record]

end BabyAI

namespace BabyAI

theorem providerResult_failure (net : Network) (text subj : Str)
    (h : (providerResult net text subj).2.1 = false) :
    failurePlaceholder subj (providerResult net text subj) := by
  unfold providerResult at h ⊢
  by_cases hisr : is_recipe_command text
  · rw [if_pos hisr] at h ⊢
    exact recipe_failure_contract _ _ h
  · rw [if_neg hisr] at h ⊢
    exact ddg_failure_contract _ _ h

theorem sourceTag_false (text : Str) :
    sourceTag text false = str "recipe_api_fallback" ∨
    sourceTag text false = str "duckduckgo_fallback" := by
  unfold sourceTag
  by_cases hisr : is_recipe_command text
  · rw [if_pos hisr]
    exact Or.inl rfl
  · rw [if_neg hisr]
    exact Or.inr rfl

set_option maxHeartbeats 1000000 in
/-- C5: when the provider for a command's intent fails, the pipeline does
not error: it persists the fallback placeholder under the extracted topic
with the intent's fallback source tag, the response carries
fromInternet = false and a non-none errorDetail, and the stored placeholder
is non-empty and embeds the topic; repeating the same command against
another failing network overwrites the same single record (same topic key,
same fallback tag, still exactly one row) with the fresh fallback text. -/
theorem c5_total_failure_persists (net net2 : Network) (cmd : Str)
    (db db1 db2 : DB) (r1 r2 : CommandResponse) (t1 t2 : List ProviderTag)
    (hinv : ∀ t, countTopic db.knowledge t ≤ 1)
    (h1 : run_command net cmd db = .ok (db1, r1, t1))
    (hf1 : r1.from_internet = false)
    (h2 : run_command net2 cmd db1 = .ok (db2, r2, t2))
    (hf2 : r2.from_internet = false) :
    (r1.source = str "recipe_api_fallback" ∨
      r1.source = str "duckduckgo_fallback") ∧
    r1.debug_error ≠ none ∧
    countTopic db1.knowledge r1.topic_or_dish = 1 ∧
    (∃ s1, findTopic db1.knowledge r1.topic_or_dish =
        some ⟨r1.topic_or_dish, r1.source, s1⟩ ∧ s1 ≠ [] ∧
        ∃ a b, s1 = a ++ r1.topic_or_dish ++ b) ∧
    r2.topic_or_dish = r1.topic_or_dish ∧
    r2.source = r1.source ∧
    countTopic db2.knowledge r1.topic_or_dish = 1 ∧
    (∃ s2, findTopic db2.knowledge r1.topic_or_dish =
        some ⟨r1.topic_or_dish, r2.source, s2⟩ ∧ s2 ≠ [] ∧
        ∃ a b, s2 = a ++ r1.topic_or_dish ++ b) := by
  obtain ⟨hc1, hc2⟩ := run_command_ok_inv net cmd db _ h1
  rw [run_command_ok net cmd db hc1 hc2] at h1
  simp only [Except.ok.injEq, Prod.mk.injEq] at h1
  obtain ⟨hdb1, hr1, ht1⟩ := h1
  subst hdb1 hr1 ht1
  rw [run_command_ok net2 cmd _ hc1 hc2] at h2
  simp only [Except.ok.injEq, Prod.mk.injEq] at h2
  obtain ⟨hdb2, hr2, ht2⟩ := h2
  subst hdb2 hr2 ht2
  set text := pyStrip (pyLower cmd) with htext
  set subj := extract_dish_or_topic text with hsubj
  set pr1 := providerResult net text subj with hpr1
  set pr2 := providerResult net2 text subj with hpr2
  simp only at hf1 hf2 ⊢
  rw [hf1, hf2]
  have hfail1 : (providerResult net text subj).2.1 = false := by
    rw [← hpr1]
    exact hf1
  have hfail2 : (providerResult net2 text subj).2.1 = false := by
    rw [← hpr2]
    exact hf2
  obtain ⟨⟨e1, he1⟩, hne1, a1, b1, hab1⟩ :=
    providerResult_failure net text subj hfail1
  obtain ⟨⟨e2, he2⟩, hne2, a2, b2, hab2⟩ :=
    providerResult_failure net2 text subj hfail2
  rw [← hpr1] at he1 hne1 hab1
  rw [← hpr2] at he2 hne2 hab2
  have hcnt1 : countTopic
      (save_web_knowledge db.knowledge subj pr1.1 (sourceTag text false)).1
        subj = 1 :=
    countTopic_save db.knowledge subj pr1.1 (sourceTag text false) (hinv subj)
  refine ⟨sourceTag_false text, ?_, hcnt1,
    ⟨pr1.1, findTopic_save db.knowledge subj pr1.1 (sourceTag text false),
      hne1, a1, b1, hab1⟩,
    trivial, rfl, ?_,
    ⟨pr2.1, findTopic_save _ subj pr2.1 (sourceTag text false),
      hne2, a2, b2, hab2⟩⟩
  · simp [he1]
  · exact countTopic_save _ subj pr2.1 (sourceTag text false) (le_of_eq hcnt1)

end BabyAI

namespace BabyAI

/-- Witness for C8 at a concrete command whose fetched summary has 400
characters, so the preview is exactly its 350-character prefix. -/
theorem c8_preview_truncation_witness :
    ∃ r, findTopic [⟨str "sun", str "duckduckgo", List.replicate 400 'a'⟩]
        (str "sun") = some r ∧
      (List.replicate 400 'a').take 350 = r.summary.take 350 ∧
      ((List.replicate 400 'a').take 350).length ≤ 350 ∧
      (350 ≤ r.summary.length →
        ((List.replicate 400 'a').take 350).length = 350) ∧
      ∃ rest, r.summary = (List.replicate 400 'a').take 350 ++ rest :=
  c8_preview_truncation
    ⟨.response 200 (List.replicate 400 'a'), .response 200 none⟩
    (str "learn about sun") emptyDB
    ⟨[], [], [⟨str "sun", str "duckduckgo", List.replicate 400 'a'⟩]⟩
    ⟨str "Command processed.", str "learn about sun", str "topic", str "sun",
     true, str "duckduckgo", none, (List.replicate 400 'a').take 350⟩
    [ProviderTag.duckduckgo] (by rfl)

/-- Witness for C9 at a concrete successful recipe command. -/
theorem c9_command_get_round_trip_witness :
    ∃ summ,
      findTopic [⟨str "pasta", str "recipe_api",
          str "Recipe for Pasta (Italian Italy).\n\nBoil."⟩] (str "pasta") =
        some ⟨str "pasta", str "recipe_api", summ⟩ ∧
      get_knowledge (str "pasta")
          ⟨[], [], [⟨str "pasta", str "recipe_api",
            str "Recipe for Pasta (Italian Italy).\n\nBoil."⟩]⟩ =
        .ok ⟨str "pasta", str "recipe_api", summ⟩ ∧
      str "Recipe for Pasta (Italian Italy).\n\nBoil." = summ.take 350 :=
  c9_command_get_round_trip
    ⟨.response 200 [], .response 200 (some [⟨some (str "Pasta"),
       some (str "Italian"), some (str "Italy"), some (str "Boil.")⟩])⟩
    (str "learn recipe for pasta") emptyDB
    ⟨[], [], [⟨str "pasta", str "recipe_api",
      str "Recipe for Pasta (Italian Italy).\n\nBoil."⟩]⟩
    ⟨str "Command processed.", str "learn recipe for pasta", str "recipe",
     str "pasta", true, str "recipe_api", none,
     str "Recipe for Pasta (Italian Italy).\n\nBoil."⟩
    [ProviderTag.recipeApi] (by rfl)

/-- Witness for C5: the command "learn about sun" run twice, first against
a network returning an empty abstract, then against a network whose request
raises, both persisting fallback text under topic "sun". -/
theorem c5_total_failure_persists_witness :
    (str "duckduckgo_fallback" = str "recipe_api_fallback" ∨
      str "duckduckgo_fallback" = str "duckduckgo_fallback") ∧
    some (str "Empty abstract") ≠ none ∧
    countTopic [⟨str "sun", str "duckduckgo_fallback",
        str "(Fallback) No direct summary found for \x27sun\x27."⟩]
      (str "sun") = 1 ∧
    (∃ s1, findTopic [⟨str "sun", str "duckduckgo_fallback",
          str "(Fallback) No direct summary found for \x27sun\x27."⟩]
        (str "sun") =
        some ⟨str "sun", str "duckduckgo_fallback", s1⟩ ∧ s1 ≠ [] ∧
        ∃ a b, s1 = a ++ str "sun" ++ b) ∧
    str "sun" = str "sun" ∧
    str "duckduckgo_fallback" = str "duckduckgo_fallback" ∧
    countTopic [⟨str "sun", str "duckduckgo_fallback",
        str "(Fallback) Error calling DuckDuckGo for \x27sun\x27: timeout"⟩]
      (str "sun") = 1 ∧
    (∃ s2, findTopic [⟨str "sun", str "duckduckgo_fallback",
          str "(Fallback) Error calling DuckDuckGo for \x27sun\x27: timeout"⟩]
        (str "sun") =
        some ⟨str "sun", str "duckduckgo_fallback", s2⟩ ∧ s2 ≠ [] ∧
        ∃ a b, s2 = a ++ str "sun" ++ b) :=
  c5_total_failure_persists
    ⟨.response 200 [], .response 200 none⟩
    ⟨.exn (str "timeout"), .exn (str "boom")⟩
    (str "learn about sun") emptyDB
    ⟨[], [], [⟨str "sun", str "duckduckgo_fallback",
      str "(Fallback) No direct summary found for \x27sun\x27."⟩]⟩
    ⟨[], [], [⟨str "sun", str "duckduckgo_fallback",
      str "(Fallback) Error calling DuckDuckGo for \x27sun\x27: timeout"⟩]⟩
    ⟨str "Command processed.", str "learn about sun", str "topic", str "sun",
     false, str "duckduckgo_fallback", some (str "Empty abstract"),
     str "(Fallback) No direct summary found for \x27sun\x27."⟩
    ⟨str "Command processed.", str "learn about sun", str "topic", str "sun",
     false, str "duckduckgo_fallback", some (str "timeout"),
     str "(Fallback) Error calling DuckDuckGo for \x27sun\x27: timeout"⟩
    [ProviderTag.duckduckgo] [ProviderTag.duckduckgo]
    (fun t => by simp [countTopic, emptyDB]) (by rfl) (by rfl) (by rfl) (by rfl)

end BabyAI
